import Mathlib

/-
  Verification of the voice-agent relay server (app.py).

  The development shallowly embeds the server logic:
  - chat messages are records of role and content;
  - the process-local session store (local_memory) is an association list;
  - the outbound HTTP token stream is a list of events, each event either a
    line of the newline-delimited JSON stream (possibly empty or malformed)
    or an exception raised by the HTTP machinery at that point;
  - the websocket sends are collected as a list of output messages.
-/

namespace VoiceAgent

/-- A chat message, mirroring the role and content dicts used in app.py. -/
structure Message where
  role : String
  content : String
  deriving DecidableEq, Repr

/-- The process-local session store local_memory: session id to history. -/
abbrev Memory := List (String × List Message)

/-- Dictionary lookup on the session store. -/
def memLookup : Memory → String → Option (List Message)
  | [], _ => none
  | (k, v) :: rest, sid => if k = sid then some v else memLookup rest sid

/-- Dictionary assignment on the session store (overwrite semantics). -/
def memInsert : Memory → String → List Message → Memory
  | [], sid, v => [(sid, v)]
  | (k, w) :: rest, sid, v =>
      if k = sid then (sid, v) :: rest else (k, w) :: memInsert rest sid v

/-- Dictionary deletion on the session store (del local_memory[s]). -/
def memErase : Memory → String → Memory
  | [], _ => []
  | (k, v) :: rest, sid =>
      if k = sid then memErase rest sid else (k, v) :: memErase rest sid

/-- The function get_chat_history of app.py: the stored history, or [] if
the session is absent. -/
def get_chat_history (mem : Memory) (session_id : String) : List Message :=
  match memLookup mem session_id with
  | some h => h
  | none => []

/-- The function update_chat_history of app.py: extend the stored history with
new_messages; if it then holds more than 13 messages, keep its first
element plus its last 12; store the result. -/
def update_chat_history (mem : Memory) (session_id : String)
    (new_messages : List Message) : Memory :=
  let history := get_chat_history mem session_id ++ new_messages
  let history :=
    if history.length > 13 then
      match history with
      | [] => []
      | h0 :: _ => h0 :: history.drop (history.length - 12)
    else history
  memInsert mem session_id history

/-- The prompt for the real_estate business key in BUSINESS_PROMPTS. -/
def real_estate_prompt : String :=
  "You are Sarah, a Luxury Property Specialist. PSYCHOLOGY: You are busy and high-status. You don\x27t \x27need\x27 the sale, which makes them want you more. FRAMEWORK: 1. Discovery: Find out \x27Why now?\x27 (Pain). 2. Agitate: \x27What happens if you don\x27t find a place by next month?\x27 3. Solution: Only show properties that fit perfectly. RULES: - Keep responses SHORT (Max 2 sentences). - Always end with a specific question to guide them. - If they ask price, say: \x27It varies. What\x27s the range where you feel comfortable stopping?\x27 OPENER: \x27Hi, this is Sarah. I saw your inquiry. Are you looking to move asap, or just getting a feel for the market?\x27"

/-- The prompt for the dentist business key in BUSINESS_PROMPTS. -/
def dentist_prompt : String :=
  "You are Jessica, the Treatment Coordinator at Elite Dental. PSYCHOLOGY: Warm authority. You are the expert\x27s gatekeeper. FRAMEWORK: 1. Empathy First: Validate their fear or pain immediately. 2. Authority: \x27Dr. Smith is the specialist for exactly that.\x27 3. Scarcity: \x27We actually have a cancellation for tomorrow, otherwise it\x27s a 3-week wait.\x27 RULES: - Speak like a caring friend. - DETECT LANGUAGE & REPLY IN IT. - Never just say \x27yes\x27. Say \x27Yes, and here is how it works...\x27OPENER: \x27Thanks for calling Elite Dental. Are you calling about a specific tooth bothering you, or just a cleaning?\x27"

/-- The prompt for the marketing business key in BUSINESS_PROMPTS. -/
def marketing_prompt : String :=
  "You are Alex, a Fractional CMO (Founder Mode). PSYCHOLOGY: Brutally honest. You only work with winners. FRAMEWORK (Gap Selling): 1. Current State: \x27What\x27s your revenue right now?\x27 2. Desired State: \x27Where do you want to be in 90 days?\x27 3. The Gap: \x27Why haven\x27t you hit that yet? What\x27s breaking?\x27 RULES: - Do NOT pitch services until you know the bottleneck. - Use \x27Got it\x27, \x27Interesting\x27, \x27Let\x27s be real\x27. - If they are vague, challenge them: \x27I can\x27t help if you don\x27t know your numbers.\x27 OPENER: \x27This is Alex. To respect your time, are you currently running ads, or are you relying purely on referrals?\x27"

/-- The static prompt catalog BUSINESS_PROMPTS, keyed by business id. -/
def BUSINESS_PROMPTS (k : String) : Option String :=
  if k = "real_estate" then some real_estate_prompt
  else if k = "dentist" then some dentist_prompt
  else if k = "marketing" then some marketing_prompt
  else none

/-- Line 87 of app.py: BUSINESS_PROMPTS.get(business_id, BUSINESS_PROMPTS[...]),
defaulting to the real_estate prompt. -/
def select_base_prompt (business_id : String) : String :=
  (BUSINESS_PROMPTS business_id).getD real_estate_prompt

/-- The fixed suffix appended to the base prompt in system_instruction. -/
def critical_instructions : String :=
  "CRITICAL INSTRUCTIONS FOR AUDIO CONVERSATION: 1. ACT NATURAL: Use fillers like \x27Hmm\x27, \x27I see\x27, \x27Exactly\x27. 2. NO LISTS: Do not use bullet points. Speak in flow. 3. SHORTNESS: Spoken conversation is short. Max 30 words per turn. 4. DETECT LANGUAGE: If user speaks Spanish, reply Spanish [ES]. 5. THE LOOP: Answer their thought, then IMMEDIATELY ask a relevant question to keep the lead."

/-- The system instruction string built in stream_conversation. -/
def system_instruction (base_prompt : String) : String :=
  base_prompt ++ " " ++ critical_instructions

/-- The fixed fallback phrase sent on the error path of stream_conversation. -/
def fallback_phrase : String :=
  "I\x27m losing signal for a second, say that again?"

/-- The observable content of one line of the newline-delimited JSON stream,
after parsing: the line can be empty (skipped by the loop), invalid JSON
(json.loads raises, swallowed by the inner except), or a JSON object carrying
an optional message content string and the done flag (chunk.get with a
default of False). -/
inductive LineData where
  | emptyLine : LineData
  | invalidJson : LineData
  | jsonObj : Option String → Bool → LineData
  deriving DecidableEq, Repr

/-- One event of the outbound HTTP stream: either a line produced by
response.aiter_lines, or an exception raised by the HTTP machinery at that
point (connect failure, timeout, mid-stream transport error). -/
inductive StreamEvent where
  | line : LineData → StreamEvent
  | raiseExc : StreamEvent
  deriving DecidableEq, Repr

/-- A message sent over the websocket: a chunk message or an end message. -/
inductive OutMsg where
  | chunk : String → OutMsg
  | endMsg : String → OutMsg
  deriving DecidableEq, Repr

/-- Outcome of the line-iteration loop of stream_conversation: normal
completion with the accumulated full_resp and the chunk messages sent, or an
exception escaping the loop with the messages sent before it. -/
inductive LoopResult where
  | ok : String → List OutMsg → LoopResult
  | exc : List OutMsg → LoopResult
  deriving DecidableEq, Repr

/-- The async-for loop over response.aiter_lines in stream_conversation
(lines 126 to 135 of app.py): skip empty lines, swallow malformed lines,
append each content token to full_resp and forward it as a chunk message,
and break when the done flag is set. An exception event aborts the loop. -/
def runLines : List StreamEvent → String → List OutMsg → LoopResult
  | [], full_resp, out => LoopResult.ok full_resp out
  | StreamEvent.raiseExc :: _, _, out => LoopResult.exc out
  | StreamEvent.line LineData.emptyLine :: rest, full_resp, out =>
      runLines rest full_resp out
  | StreamEvent.line LineData.invalidJson :: rest, full_resp, out =>
      runLines rest full_resp out
  | StreamEvent.line (LineData.jsonObj none d) :: rest, full_resp, out =>
      if d then LoopResult.ok full_resp out else runLines rest full_resp out
  | StreamEvent.line (LineData.jsonObj (some word) d) :: rest, full_resp, out =>
      if d then LoopResult.ok (full_resp ++ word) (out ++ [OutMsg.chunk word])
      else runLines rest (full_resp ++ word) (out ++ [OutMsg.chunk word])

/-- Result of one call to stream_conversation: the message list sent to the
chat-completion endpoint, the session store after the call, and the messages
sent over the websocket. -/
structure ConvResult where
  request : List Message
  memory : Memory
  out : List OutMsg
  deriving DecidableEq, Repr

/-- The function stream_conversation of app.py (lines 86 to 150): select the base
prompt, build the system instruction, fetch the history (seeding a local
system message only when it is empty), build the request message list,
run the streaming loop; on success store the user and assistant pair and
send the end message; on any exception send the fallback chunk and the
fallback end message, leaving the store untouched. -/
def stream_conversation (mem : Memory) (session_id : String)
    (user_text : String) (business_id : String)
    (events : List StreamEvent) : ConvResult :=
  let base_prompt := select_base_prompt business_id
  let sys := system_instruction base_prompt
  let history := get_chat_history mem session_id
  let history := if history.isEmpty then [Message.mk "system" sys] else history
  let messages := history ++ [Message.mk "user" user_text]
  match runLines events "" [] with
  | LoopResult.ok full_resp out =>
      let mem2 := update_chat_history mem session_id
        [Message.mk "user" user_text, Message.mk "assistant" full_resp]
      ConvResult.mk messages mem2 (out ++ [OutMsg.endMsg full_resp])
  | LoopResult.exc out =>
      ConvResult.mk messages mem
        (out ++ [OutMsg.chunk fallback_phrase, OutMsg.endMsg fallback_phrase])

/-- The WebSocketDisconnect handler of websocket_endpoint (lines 165 to 166):
delete the session entry when present. -/
def handle_disconnect (mem : Memory) (session_id : String) : Memory :=
  if (memLookup mem session_id).isSome then memErase mem session_id else mem

/-- The receive loop of websocket_endpoint: each received text (paired with
the stream behaviour of its outbound call) is skipped when blank, otherwise
handled by stream_conversation. -/
def websocket_loop (session_id : String) (biz : String) :
    Memory → List (String × List StreamEvent) → Memory × List OutMsg
  | mem, [] => (mem, [])
  | mem, (data, events) :: rest =>
      if data.trim = "" then websocket_loop session_id biz mem rest
      else
        let r := stream_conversation mem session_id data biz events
        let rest2 := websocket_loop session_id biz r.memory rest
        (rest2.1, r.out ++ rest2.2)

/-- The websocket endpoint of app.py: run the receive loop until the client
disconnects, then delete the session entry. -/
def websocket_endpoint (mem : Memory) (session_id : String) (biz : String)
    (msgs : List (String × List StreamEvent)) : Memory × List OutMsg :=
  let r := websocket_loop session_id biz mem msgs
  (handle_disconnect r.1 session_id, r.2)

/-- Concatenation of the contents of all chunk messages in an output list. -/
def chunkConcat : List OutMsg → String
  | [] => ""
  | OutMsg.chunk c :: rest => c ++ chunkConcat rest
  | OutMsg.endMsg _ :: rest => chunkConcat rest

/-- The full_text of the final end message of an output list, if the list
ends with an end message. -/
def endFullText (out : List OutMsg) : Option String :=
  match out.getLast? with
  | some (OutMsg.endMsg t) => some t
  | _ => none

/-- The content tokens the streaming loop consumes from an event list before
it terminates normally (at the done flag or at the end of the stream). -/
def streamedTokens : List StreamEvent → List String
  | [] => []
  | StreamEvent.raiseExc :: _ => []
  | StreamEvent.line LineData.emptyLine :: rest => streamedTokens rest
  | StreamEvent.line LineData.invalidJson :: rest => streamedTokens rest
  | StreamEvent.line (LineData.jsonObj none d) :: rest =>
      if d then [] else streamedTokens rest
  | StreamEvent.line (LineData.jsonObj (some word) d) :: rest =>
      if d then [word] else word :: streamedTokens rest

/-- Concatenation of a token list into one string. -/
def joinTokens : List String → String
  | [] => ""
  | w :: rest => w ++ joinTokens rest

/-- Modelled from the spec: the sentence-chunking description says a buffer
is emitted only when it ends in terminal punctuation (., !, ?, :, ;). This
predicate follows the words of the spec and is used only to compare the
described chunker with the code. -/
def spec_endsTerminalPunct (s : String) : Bool :=
  match s.data.getLast? with
  | some c => c = '.' || c = '!' || c = '?' || c = ':' || c = ';'
  | none => false

/-- Count of update calls: iterate update_chat_history over a list of
new-message batches, one call per batch. -/
def iterate_updates (session_id : String) :
    Memory → List (List Message) → Memory
  | mem, [] => mem
  | mem, new :: rest =>
      iterate_updates session_id (update_chat_history mem session_id new) rest

/-
  Helper lemmas about the store, the output list, and the streaming loop.
-/

/-- Looking up a key right after assigning it yields the assigned value. -/
theorem memLookup_memInsert_self (m : Memory) (k : String) (v : List Message) :
    memLookup (memInsert m k v) k = some v := by
  induction m with
  | nil => simp [memInsert, memLookup]
  | cons p rest ih =>
    obtain ⟨k2, v2⟩ := p
    by_cases h : k2 = k
    · simp [memInsert, memLookup, h]
    · simp [memInsert, memLookup, h, ih]

/-- Looking up a key right after deleting it yields nothing. -/
theorem memLookup_memErase_self (m : Memory) (k : String) :
    memLookup (memErase m k) k = none := by
  induction m with
  | nil => rfl
  | cons p rest ih =>
    obtain ⟨k2, v2⟩ := p
    by_cases h : k2 = k
    · simp [memErase, h, ih]
    · simp [memErase, memLookup, h, ih]

/-- The history read back right after an assignment is the assigned one. -/
theorem get_chat_history_memInsert (mem : Memory) (sid : String)
    (v : List Message) :
    get_chat_history (memInsert mem sid v) sid = v := by
  simp [get_chat_history, memLookup_memInsert_self]

/-- After the disconnect handler runs, the session id is absent. -/
theorem handle_disconnect_lookup (m : Memory) (sid : String) :
    memLookup (handle_disconnect m sid) sid = none := by
  unfold handle_disconnect
  split
  · exact memLookup_memErase_self m sid
  · rename_i h
    cases hm : memLookup m sid with
    | none => rfl
    | some v => rw [hm] at h; simp at h

/-- One call to update_chat_history leaves at most 13 stored messages. -/
theorem length_after_update_le (mem : Memory) (sid : String)
    (new : List Message) :
    (get_chat_history (update_chat_history mem sid new) sid).length ≤ 13 := by
  simp only [update_chat_history, get_chat_history_memInsert]
  generalize (get_chat_history mem sid ++ new) = l
  split
  · cases l with
    | nil => simp
    | cons h0 t =>
      simp only [List.length_cons, List.length_drop]
      omega
  · omega

/-- Iterating update calls preserves the 13-message bound. -/
theorem iterate_updates_bound (sid : String) (updates : List (List Message)) :
    ∀ mem : Memory, (get_chat_history mem sid).length ≤ 13 →
      (get_chat_history (iterate_updates sid mem updates) sid).length ≤ 13 := by
  induction updates with
  | nil => intro mem h; exact h
  | cons new rest ih =>
    intro mem _
    exact ih _ (length_after_update_le mem sid new)

/-- The last element of a list with an appended singleton. -/
theorem getLast_append_singleton {α : Type} (l : List α) (a : α) :
    (l ++ [a]).getLast? = some a := by
  simp

/-- The final full text of an output list ending in an end message. -/
theorem endFullText_concat (l : List OutMsg) (t : String) :
    endFullText (l ++ [OutMsg.endMsg t]) = some t := by
  simp [endFullText]

/-- The final full text of an output list ending in some message followed by
an end message. -/
theorem endFullText_concat2 (l : List OutMsg) (a : OutMsg) (t : String) :
    endFullText (l ++ [a, OutMsg.endMsg t]) = some t := by
  have h : l ++ [a, OutMsg.endMsg t] = (l ++ [a]) ++ [OutMsg.endMsg t] := by
    simp
  rw [h, endFullText_concat]

/-- Chunk-content concatenation distributes over list append. -/
theorem chunkConcat_append (a b : List OutMsg) :
    chunkConcat (a ++ b) = chunkConcat a ++ chunkConcat b := by
  induction a with
  | nil => simp [chunkConcat, String.empty_append]
  | cons x rest ih =>
    cases x with
    | chunk c => simp [chunkConcat, ih, String.append_assoc]
    | endMsg t => simp [chunkConcat, ih]

/-- Chunk-content concatenation of pure chunk messages joins the tokens. -/
theorem chunkConcat_map_chunk (l : List String) :
    chunkConcat (l.map OutMsg.chunk) = joinTokens l := by
  induction l with
  | nil => rfl
  | cons w rest ih => simp [chunkConcat, joinTokens, ih]

/-- A normal completion of the streaming loop accumulates exactly the
consumed content tokens, and sends exactly one chunk message per token. -/
theorem runLines_ok_spec (events : List StreamEvent) :
    ∀ (acc : String) (out : List OutMsg) (fr : String) (o : List OutMsg),
      runLines events acc out = LoopResult.ok fr o →
      fr = acc ++ joinTokens (streamedTokens events) ∧
      o = out ++ (streamedTokens events).map OutMsg.chunk := by
  induction events with
  | nil =>
    intro acc out fr o h
    simp only [runLines] at h
    injection h with h1 h2
    subst h1; subst h2
    simp [streamedTokens, joinTokens, String.append_empty]
  | cons e rest ih =>
    intro acc out fr o h
    cases e with
    | raiseExc => simp only [runLines] at h; cases h
    | line ld =>
      cases ld with
      | emptyLine =>
        simp only [runLines] at h
        obtain ⟨h1, h2⟩ := ih acc out fr o h
        simp [streamedTokens, h1, h2]
      | invalidJson =>
        simp only [runLines] at h
        obtain ⟨h1, h2⟩ := ih acc out fr o h
        simp [streamedTokens, h1, h2]
      | jsonObj c d =>
        cases c with
        | none =>
          cases d with
          | true =>
            simp only [runLines, if_pos] at h
            injection h with h1 h2
            subst h1; subst h2
            simp [streamedTokens, joinTokens, String.append_empty]
          | false =>
            simp only [runLines, if_neg] at h
            obtain ⟨h1, h2⟩ := ih acc out fr o h
            simp [streamedTokens, h1, h2]
        | some w =>
          cases d with
          | true =>
            simp only [runLines, if_pos] at h
            injection h with h1 h2
            subst h1; subst h2
            simp [streamedTokens, joinTokens, String.append_empty]
          | false =>
            simp only [runLines, if_neg] at h
            obtain ⟨h1, h2⟩ := ih _ _ fr o h
            constructor
            · rw [h1]
              simp [streamedTokens, joinTokens, String.append_assoc]
            · rw [h2]
              simp [streamedTokens]

/-- Shape of the result of stream_conversation when the streaming loop
completes normally. -/
theorem stream_conversation_ok_eq (mem : Memory) (sid ut biz : String)
    (events : List StreamEvent) (fr : String) (out : List OutMsg)
    (h : runLines events "" [] = LoopResult.ok fr out) :
    stream_conversation mem sid ut biz events =
      ConvResult.mk
        ((if (get_chat_history mem sid).isEmpty
            then [Message.mk "system" (system_instruction (select_base_prompt biz))]
            else get_chat_history mem sid) ++ [Message.mk "user" ut])
        (update_chat_history mem sid
          [Message.mk "user" ut, Message.mk "assistant" fr])
        (out ++ [OutMsg.endMsg fr]) := by
  simp only [stream_conversation, h]

/-- Shape of the result of stream_conversation when the streaming loop
aborts with an exception. -/
theorem stream_conversation_exc_eq (mem : Memory) (sid ut biz : String)
    (events : List StreamEvent) (out : List OutMsg)
    (h : runLines events "" [] = LoopResult.exc out) :
    stream_conversation mem sid ut biz events =
      ConvResult.mk
        ((if (get_chat_history mem sid).isEmpty
            then [Message.mk "system" (system_instruction (select_base_prompt biz))]
            else get_chat_history mem sid) ++ [Message.mk "user" ut])
        mem
        (out ++ [OutMsg.chunk fallback_phrase, OutMsg.endMsg fallback_phrase]) := by
  simp only [stream_conversation, h]

/-
  Claim theorems.
-/

/-- Claim C1, counterexample: when the model stream carries no content (one
line with only the done flag), the relay delivers an end message whose full
text is the empty string even though the input utterance is non-empty, so
the text returned to the caller is not always non-empty. -/
theorem empty_reply_counterexample :
    "hello" ≠ "" ∧
    endFullText (stream_conversation [] "s" "hello" "real_estate"
      [StreamEvent.line (LineData.jsonObj none true)]).out = some "" := by
  constructor
  · decide
  · rfl

/-- Claim C1 (amended): for every non-empty input utterance the relay never
raises and always delivers a final end message to the caller; its text is
the fallback phrase on the error path, and the accumulated model reply,
which may be empty, on the success path. -/
theorem relay_always_delivers_end_message (mem : Memory) (sid ut biz : String)
    (events : List StreamEvent) (hut : ut ≠ "") :
    ∃ ft, endFullText (stream_conversation mem sid ut biz events).out = some ft ∧
      (ft = fallback_phrase ∨
        ∃ out, runLines events "" [] = LoopResult.ok ft out) := by
  cases hres : runLines events "" [] with
  | ok fr out =>
    refine ⟨fr, ?_, Or.inr ⟨out, rfl⟩⟩
    rw [stream_conversation_ok_eq mem sid ut biz events fr out hres]
    exact endFullText_concat _ _
  | exc out =>
    refine ⟨fallback_phrase, ?_, Or.inl rfl⟩
    rw [stream_conversation_exc_eq mem sid ut biz events out hres]
    exact endFullText_concat2 _ _ _

/-- Witness for the amended claim C1 at a concrete input. -/
theorem relay_always_delivers_end_message_witness :
    "hello" ≠ "" ∧
    ∃ ft, endFullText (stream_conversation [] "sess" "hello" "real_estate"
        []).out = some ft ∧
      (ft = fallback_phrase ∨
        ∃ out, runLines [] "" [] = LoopResult.ok ft out) :=
  ⟨by decide,
    relay_always_delivers_end_message [] "sess" "hello" "real_estate" []
      (by decide)⟩

/-- Claim C2 (code bug): after the first successful turn, the stored history
starts with the user message rather than the system message, and the request
of the second turn contains no system-role message at all, because
stream_conversation never writes its locally seeded system message back to
the store; this contradicts the Keep System + Last 12 comment in
update_chat_history. -/
theorem system_prompt_dropped :
    (get_chat_history (stream_conversation [] "s" "hello" "real_estate"
        [StreamEvent.line (LineData.jsonObj (some "Hi.") true)]).memory
        "s").head? = some (Message.mk "user" "hello") ∧
    ((stream_conversation
        (stream_conversation [] "s" "hello" "real_estate"
          [StreamEvent.line (LineData.jsonObj (some "Hi.") true)]).memory
        "s" "again" "real_estate"
        [StreamEvent.line (LineData.jsonObj (some "Ok.") true)]).request.all
      (fun m => ! (m.role == "system"))) = true :=
  ⟨rfl, rfl⟩

/-- Claim C3: starting from the empty store, after any number of calls to
update_chat_history the stored history never holds more than 13 messages. -/
theorem history_window_bounded (sid : String)
    (updates : List (List Message)) :
    (get_chat_history (iterate_updates sid [] updates) sid).length ≤ 13 :=
  iterate_updates_bound sid updates [] (by simp [get_chat_history, memLookup])

/-- Claim C4: whenever the outbound chat call fails, that is, the streaming
loop aborts with an exception, the relay appends exactly the fallback chunk
and the fallback end message, so the text reported to the caller is exactly
the configured fallback string and no error escapes. -/
theorem outbound_failure_yields_fallback (mem : Memory) (sid ut biz : String)
    (events : List StreamEvent) (out : List OutMsg)
    (h : runLines events "" [] = LoopResult.exc out) :
    (stream_conversation mem sid ut biz events).out =
      out ++ [OutMsg.chunk fallback_phrase, OutMsg.endMsg fallback_phrase] ∧
    endFullText (stream_conversation mem sid ut biz events).out =
      some fallback_phrase := by
  rw [stream_conversation_exc_eq mem sid ut biz events out h]
  exact ⟨rfl, endFullText_concat2 _ _ _⟩

/-- Witness for claim C4 at a concrete failing stream. -/
theorem outbound_failure_yields_fallback_witness :
    runLines [StreamEvent.raiseExc] "" [] = LoopResult.exc [] ∧
    ((stream_conversation [] "s4" "hi" "real_estate"
        [StreamEvent.raiseExc]).out =
      [] ++ [OutMsg.chunk fallback_phrase, OutMsg.endMsg fallback_phrase] ∧
    endFullText (stream_conversation [] "s4" "hi" "real_estate"
        [StreamEvent.raiseExc]).out = some fallback_phrase) :=
  ⟨rfl, outbound_failure_yields_fallback [] "s4" "hi" "real_estate"
    [StreamEvent.raiseExc] [] rfl⟩

/-- Claim C5, counterexample: when the outbound stream fails after a chunk
was already forwarded, the concatenation of all emitted chunk contents is
the partial reply followed by the fallback phrase, which differs from the
full text of the final end message, so the round-trip fails on that part of
the fallback path. -/
theorem roundtrip_counterexample :
    chunkConcat (stream_conversation [] "s" "hi" "real_estate"
        [StreamEvent.line (LineData.jsonObj (some "Hi.") false),
         StreamEvent.raiseExc]).out ≠ fallback_phrase ∧
    endFullText (stream_conversation [] "s" "hi" "real_estate"
        [StreamEvent.line (LineData.jsonObj (some "Hi.") false),
         StreamEvent.raiseExc]).out = some fallback_phrase := by
  constructor
  · decide
  · rfl

/-- Claim C5 (amended): concatenating all emitted chunk contents equals the
full text of the final end message on the success path, and on the fallback
path when the failure occurred before any chunk was forwarded; a mid-stream
failure keeps the already forwarded chunks, so only these two cases round
trip. -/
theorem stream_roundtrip (mem : Memory) (sid ut biz : String)
    (events : List StreamEvent) :
    (∀ fr out, runLines events "" [] = LoopResult.ok fr out →
      chunkConcat (stream_conversation mem sid ut biz events).out = fr ∧
      endFullText (stream_conversation mem sid ut biz events).out = some fr) ∧
    (runLines events "" [] = LoopResult.exc [] →
      chunkConcat (stream_conversation mem sid ut biz events).out =
        fallback_phrase ∧
      endFullText (stream_conversation mem sid ut biz events).out =
        some fallback_phrase) := by
  constructor
  · intro fr out h
    obtain ⟨hfr, hout⟩ := runLines_ok_spec events "" [] fr out h
    rw [stream_conversation_ok_eq mem sid ut biz events fr out h]
    refine ⟨?_, endFullText_concat _ _⟩
    show chunkConcat (out ++ [OutMsg.endMsg fr]) = fr
    rw [chunkConcat_append, hout, hfr]
    simp [chunkConcat, chunkConcat_map_chunk, String.empty_append,
      String.append_empty]
  · intro h
    rw [stream_conversation_exc_eq mem sid ut biz events [] h]
    refine ⟨?_, endFullText_concat2 _ _ _⟩
    show chunkConcat ([] ++ [OutMsg.chunk fallback_phrase,
      OutMsg.endMsg fallback_phrase]) = fallback_phrase
    simp [chunkConcat, String.append_empty]

/-- Witness for the amended claim C5 at a concrete successful stream. -/
theorem stream_roundtrip_witness :
    runLines [StreamEvent.line (LineData.jsonObj (some "Hi.") true)] "" [] =
      LoopResult.ok "Hi." [OutMsg.chunk "Hi."] ∧
    (chunkConcat (stream_conversation [] "s5" "hey" "real_estate"
        [StreamEvent.line (LineData.jsonObj (some "Hi.") true)]).out =
      "Hi." ∧
    endFullText (stream_conversation [] "s5" "hey" "real_estate"
        [StreamEvent.line (LineData.jsonObj (some "Hi.") true)]).out =
      some "Hi.") :=
  ⟨rfl, (stream_roundtrip [] "s5" "hey" "real_estate"
      [StreamEvent.line (LineData.jsonObj (some "Hi.") true)]).1
    "Hi." [OutMsg.chunk "Hi."] rfl⟩

/-- Claim C6, counterexample: the loop forwards every streamed token
immediately as its own chunk message; with two tokens it emits two chunk
messages, the first of which does not end in terminal punctuation, so no
punctuation-triggered buffering takes place and tokens are forwarded
individually. -/
theorem no_sentence_buffering_counterexample :
    (stream_conversation [] "s" "hi" "real_estate"
        [StreamEvent.line (LineData.jsonObj (some "Hello ") false),
         StreamEvent.line (LineData.jsonObj (some "world.") true)]).out =
      [OutMsg.chunk "Hello ", OutMsg.chunk "world.",
       OutMsg.endMsg "Hello world."] ∧
    spec_endsTerminalPunct "Hello " = false :=
  ⟨rfl, rfl⟩

/-- Claim C6 (amended): there is no buffering; on the success path the loop
emits exactly one chunk message per streamed content token, in order, and
the end message carries their concatenation. -/
theorem tokens_forwarded_individually (mem : Memory) (sid ut biz : String)
    (events : List StreamEvent) (fr : String) (out : List OutMsg)
    (h : runLines events "" [] = LoopResult.ok fr out) :
    (stream_conversation mem sid ut biz events).out =
      (streamedTokens events).map OutMsg.chunk ++ [OutMsg.endMsg fr] ∧
    fr = joinTokens (streamedTokens events) := by
  obtain ⟨hfr, hout⟩ := runLines_ok_spec events "" [] fr out h
  rw [stream_conversation_ok_eq mem sid ut biz events fr out h]
  constructor
  · show out ++ [OutMsg.endMsg fr] = _
    rw [hout]
    simp
  · rw [hfr]
    exact String.empty_append _

/-- Witness for the amended claim C6 at a concrete two-token stream. -/
theorem tokens_forwarded_individually_witness :
    runLines [StreamEvent.line (LineData.jsonObj (some "Hello ") false),
        StreamEvent.line (LineData.jsonObj (some "world.") true)] "" [] =
      LoopResult.ok "Hello world."
        [OutMsg.chunk "Hello ", OutMsg.chunk "world."] ∧
    ((stream_conversation [] "s6" "yo" "real_estate"
        [StreamEvent.line (LineData.jsonObj (some "Hello ") false),
         StreamEvent.line (LineData.jsonObj (some "world.") true)]).out =
      (streamedTokens [StreamEvent.line (LineData.jsonObj (some "Hello ") false),
         StreamEvent.line (LineData.jsonObj (some "world.") true)]).map
        OutMsg.chunk ++ [OutMsg.endMsg "Hello world."] ∧
    "Hello world." = joinTokens (streamedTokens
      [StreamEvent.line (LineData.jsonObj (some "Hello ") false),
       StreamEvent.line (LineData.jsonObj (some "world.") true)])) :=
  ⟨rfl, tokens_forwarded_individually [] "s6" "yo" "real_estate"
    [StreamEvent.line (LineData.jsonObj (some "Hello ") false),
     StreamEvent.line (LineData.jsonObj (some "world.") true)]
    "Hello world." [OutMsg.chunk "Hello ", OutMsg.chunk "world."] rfl⟩

/-- Claim C7, counterexample: a malformed streamed payload line is swallowed
by the inner bare except and produces no message at all; the output of a run
containing an invalid JSON line holds no apology string, so not every error
of the taxonomy is converted into a user-facing apology — the malformed-line
case is silently dropped. -/
theorem malformed_line_silently_skipped :
    (stream_conversation [] "s" "hi" "real_estate"
        [StreamEvent.line LineData.invalidJson,
         StreamEvent.line (LineData.jsonObj (some "Ok.") true)]).out =
      [OutMsg.chunk "Ok.", OutMsg.endMsg "Ok."] ∧
    OutMsg.chunk fallback_phrase ∉
      (stream_conversation [] "s" "hi" "real_estate"
        [StreamEvent.line LineData.invalidJson,
         StreamEvent.line (LineData.jsonObj (some "Ok.") true)]).out := by
  refine ⟨rfl, ?_⟩
  decide

/-- Claim C7 (amended): exceptions escaping the streaming block, such as
transport failures and timeouts, are converted into the fallback apology
chunk and end message, while a malformed streamed payload line is silently
skipped by the inner bare except: it changes nothing in the loop state and
emits nothing. -/
theorem error_policy (mem : Memory) (sid ut biz : String)
    (events rest : List StreamEvent) (acc : String) (o out : List OutMsg)
    (h : runLines events "" [] = LoopResult.exc out) :
    runLines (StreamEvent.line LineData.invalidJson :: rest) acc o =
      runLines rest acc o ∧
    (stream_conversation mem sid ut biz events).out =
      out ++ [OutMsg.chunk fallback_phrase, OutMsg.endMsg fallback_phrase] := by
  refine ⟨rfl, ?_⟩
  rw [stream_conversation_exc_eq mem sid ut biz events out h]

/-- Witness for the amended claim C7 at concrete inputs. -/
theorem error_policy_witness :
    runLines [StreamEvent.raiseExc] "" [] = LoopResult.exc [] ∧
    (runLines [StreamEvent.line LineData.invalidJson] "x" [] =
      runLines [] "x" [] ∧
    (stream_conversation [] "s7" "hi" "dentist" [StreamEvent.raiseExc]).out =
      [] ++ [OutMsg.chunk fallback_phrase, OutMsg.endMsg fallback_phrase]) :=
  ⟨rfl, error_policy [] "s7" "hi" "dentist" [StreamEvent.raiseExc] [] "x" [] []
    rfl⟩

/-- Claim C8: after the websocket loop of a session ends with a disconnect,
the session id is no longer present in the process-local session store. -/
theorem disconnect_destroys_session (mem : Memory) (sid biz : String)
    (msgs : List (String × List StreamEvent)) :
    memLookup (websocket_endpoint mem sid biz msgs).1 sid = none := by
  show memLookup
    (handle_disconnect (websocket_loop sid biz mem msgs).1 sid) sid = none
  exact handle_disconnect_lookup _ _

/-- Claim C9: a business id outside the catalog keys real_estate, dentist
and marketing silently falls back to the real_estate prompt, and the whole
relay then behaves exactly as it does for the real_estate key. -/
theorem unknown_business_falls_back (mem : Memory) (sid ut biz : String)
    (events : List StreamEvent)
    (h1 : biz ≠ "real_estate") (h2 : biz ≠ "dentist")
    (h3 : biz ≠ "marketing") :
    select_base_prompt biz = real_estate_prompt ∧
    stream_conversation mem sid ut biz events =
      stream_conversation mem sid ut "real_estate" events := by
  have hsel : select_base_prompt biz = real_estate_prompt := by
    simp [select_base_prompt, BUSINESS_PROMPTS, h1, h2, h3]
  have hre : select_base_prompt "real_estate" = real_estate_prompt := by
    simp [select_base_prompt, BUSINESS_PROMPTS]
  refine ⟨hsel, ?_⟩
  simp only [stream_conversation, hsel, hre]

/-- Witness for claim C9 at a business id outside the catalog. -/
theorem unknown_business_falls_back_witness :
    ("florist" ≠ "real_estate" ∧ "florist" ≠ "dentist" ∧
      "florist" ≠ "marketing") ∧
    (select_base_prompt "florist" = real_estate_prompt ∧
      stream_conversation [] "s9" "hi" "florist" [] =
        stream_conversation [] "s9" "hi" "real_estate" []) :=
  ⟨⟨by decide, by decide, by decide⟩,
    unknown_business_falls_back [] "s9" "hi" "florist" []
      (by decide) (by decide) (by decide)⟩

/-- Claim C10: when the outbound call raises at any point, including after
chunks were already forwarded, the error path leaves the session store
untouched; neither the user utterance nor the incomplete assistant reply is
appended to the stored history. -/
theorem failure_leaves_history_unchanged (mem : Memory) (sid ut biz : String)
    (events : List StreamEvent) (out : List OutMsg)
    (h : runLines events "" [] = LoopResult.exc out) :
    (stream_conversation mem sid ut biz events).memory = mem := by
  rw [stream_conversation_exc_eq mem sid ut biz events out h]

/-- Witness for claim C10 at a mid-stream failure over a non-empty store. -/
theorem failure_leaves_history_unchanged_witness :
    runLines [StreamEvent.line (LineData.jsonObj (some "Hi.") false),
        StreamEvent.raiseExc] "" [] = LoopResult.exc [OutMsg.chunk "Hi."] ∧
    (stream_conversation [("s10", [Message.mk "user" "old"])] "s10" "hi"
        "real_estate"
        [StreamEvent.line (LineData.jsonObj (some "Hi.") false),
         StreamEvent.raiseExc]).memory =
      [("s10", [Message.mk "user" "old"])] :=
  ⟨rfl, failure_leaves_history_unchanged
    [("s10", [Message.mk "user" "old"])] "s10" "hi" "real_estate"
    [StreamEvent.line (LineData.jsonObj (some "Hi.") false),
     StreamEvent.raiseExc] [OutMsg.chunk "Hi."] rfl⟩

end VoiceAgent
